import Mathlib

/-!
Verification of the Financial-Snapshot-GPT-Analyzer web application
(`src/app.py`) against its natural-language specification.

The Python code is shallowly embedded as follows.

* Python `float` values are modelled as rationals (`ℚ`): every arithmetic
  operation performed by the program (addition, subtraction, multiplication,
  division by a positive number, `max`, truncation by `int`) is exact on the
  inputs the specification talks about, so the rational model agrees with the
  float semantics on every stated claim.  The non-finite float spellings
  (`inf`, `nan`) have no rational counterpart and are treated as unparsable.
* The submitted HTML form is an association list of string keys and values
  (`Form`); Flask's `form.get` returns the first value for a key, `none` when
  the key is absent.
* Fallible Python code (`raise ValueError`) becomes `Except String`.
* The three external collaborators — the market-data download, the
  environment, and the language-model transport — are passed in as explicit
  function parameters, and the request handler and `call_gpt` additionally
  record, in returned trace structures, which external calls were performed.
-/

/-- Exponentiation on `ℚ` by structural recursion (used by the literal
parser so that all definitions stay kernel-computable). -/
def qpow (q : ℚ) : Nat → ℚ
  | 0 => 1
  | n + 1 => qpow q n * q

/-- Exponentiation of `ℚ` by an integer exponent (for the `e`/`E` exponent
part of a float literal). -/
def qpowz (q : ℚ) (e : Int) : ℚ :=
  if 0 ≤ e then qpow q e.toNat else 1 / qpow q (-e).toNat

/-- A submitted form: ordered key/value pairs, as sent in the POST body. -/
structure Form where
  entries : List (String × String)

/-- First value bound to a key, like Flask's `MultiDict.get`. -/
def lookupField : List (String × String) → String → Option String
  | [], _ => none
  | (k, v) :: rest, key => if k = key then some v else lookupField rest key

/-- Reading a form field; `none` when the field is absent. -/
def Form.get (f : Form) (key : String) : Option String :=
  lookupField f.entries key

/-- Python's `str.strip()`: remove leading and trailing whitespace. -/
def pyStrip (s : String) : String :=
  String.mk (((s.toList.dropWhile Char.isWhitespace).reverse.dropWhile
    Char.isWhitespace).reverse)

/-- Python's `str.replace(",", "")`: remove every comma. -/
def stripCommas (s : String) : String :=
  String.mk (s.toList.filter (fun c => c != ','))

/-- Python's `str.lower()` on the ASCII strings the form uses. -/
def pyLower (s : String) : String :=
  String.mk (s.toList.map Char.toLower)

/-- The digit test used by the float-literal parser. -/
def isDigits (cs : List Char) : Bool :=
  cs.all (fun c => c.isDigit)

/-- Value of a list of decimal digit characters. -/
def natOfDigits (cs : List Char) : Nat :=
  cs.foldl (fun a c => a * 10 + (c.toNat - 48)) 0

/-- Optional leading sign of a float literal. -/
def splitSign : List Char → ℚ × List Char
  | [] => (1, [])
  | c :: t =>
    if c = '+' then (1, t)
    else if c = '-' then (-1, t)
    else (1, c :: t)

/-- Mantissa of a float literal: digits with at most one decimal point and
at least one digit overall.  Returns the digit value together with the
number of fractional digits. -/
def parseMantissa (cs : List Char) : Option (Nat × Nat) :=
  let ip := cs.takeWhile (fun c => c != '.')
  match cs.dropWhile (fun c => c != '.') with
  | [] => if ip.isEmpty then none
          else if isDigits ip then some (natOfDigits ip, 0) else none
  | _ :: fp =>
      if ip.isEmpty && fp.isEmpty then none
      else if isDigits ip && isDigits fp then
        some (natOfDigits (ip ++ fp), fp.length)
      else none

/-- Exponent part of a float literal (after `e`/`E`): optional sign and at
least one digit. -/
def parseExp (cs : List Char) : Option Int :=
  match cs with
  | [] => none
  | c :: t =>
    if c = '+' then
      (if !t.isEmpty && isDigits t then some ((natOfDigits t : Nat) : Int) else none)
    else if c = '-' then
      (if !t.isEmpty && isDigits t then some (-((natOfDigits t : Nat) : Int)) else none)
    else
      (if isDigits (c :: t) then some ((natOfDigits (c :: t) : Nat) : Int) else none)

/-- Body of the float-literal parser, on the character list of the input. -/
def pyFloatAux : List Char → Option ℚ
  | [] => none
  | c :: t =>
    let sb := splitSign (c :: t)
    let mant := sb.2.takeWhile (fun x => x != 'e' && x != 'E')
    let expPart : Option Int :=
      match sb.2.dropWhile (fun x => x != 'e' && x != 'E') with
      | [] => some 0
      | _ :: es => parseExp es
    match parseMantissa mant, expPart with
    | some (m, fl), some e => some (sb.1 * (m : ℚ) / qpow 10 fl * qpowz 10 e)
    | _, _ => none

/-- Modelled from the spec: Python's builtin `float` conversion (external to
the repository), applied to already-stripped text — an optional sign, digits
with an optional decimal point, and an optional decimal exponent.  The
non-finite spellings `inf` and `nan` and underscore digit separators are not
representable in `ℚ` and are treated as unparsable. -/
def pyFloat (s : String) : Option ℚ :=
  pyFloatAux s.toList

/-- The normalisation `parse_float` applies to a raw field value before
conversion: missing becomes empty, commas are removed, whitespace is
stripped (`app.py` line 24). -/
def normRaw (v : Option String) : String :=
  pyStrip (stripCommas (v.getD ""))

/-- Translation of `parse_float` (`app.py` lines 22-31): convert a form
input to a number, failing with a helpful message. -/
def parse_float (form : Form) (field_name label : String) : Except String ℚ :=
  let raw_value := normRaw (form.get field_name)
  if raw_value = "" then Except.error (label ++ " is required.")
  else
    match pyFloat raw_value with
    | some q => Except.ok q
    | none => Except.error (label ++ " must be a number.")

/-- The required numeric fields of `build_user_profile`, with their labels,
in the order the source validates them (`app.py` lines 37-43). -/
def requiredFields : List (String × String) :=
  [("current_age", "Current age"), ("target_age", "Target age"),
   ("income", "Annual after-tax income"), ("total_debt", "Total debt"),
   ("avg_debt_rate", "Average debt interest rate"),
   ("assets", "Total financial assets"), ("monthly_savings", "Monthly savings")]

/-- The `name` field handling of `build_user_profile` (`app.py` line 36):
stripped, defaulting to `"User"` when missing or blank. -/
def nameOf (form : Form) : String :=
  let stripped := pyStrip ((form.get "name").getD "")
  if stripped = "" then "User" else stripped

/-- The `risk` field handling of `build_user_profile` (`app.py` line 45):
`form.get("risk") or "moderate"`, lower-cased.  A missing or empty field
defaults to `"moderate"`. -/
def riskOf (form : Form) : String :=
  let raw := (form.get "risk").getD ""
  pyLower (if raw = "" then "moderate" else raw)

/-- The accepted risk-appetite values (`app.py` line 46). -/
def validRisks : List String :=
  ["conservative", "moderate", "aggressive"]

/-- The growth-rate dictionary of `app.py` line 54.  In the source it is a
dict lookup that is only reached after membership in `validRisks` has been
checked; the trailing branch therefore corresponds to `"aggressive"`. -/
def growthRateMap (risk : String) : ℚ :=
  if risk = "conservative" then 0.03
  else if risk = "moderate" then 0.06
  else 0.08

/-- Python's `int()` on a float: truncation toward zero. -/
def pyInt (q : ℚ) : Int :=
  if 0 ≤ q then ⌊q⌋ else -⌊-q⌋

/-- The projection loop of `app.py` lines 57-59: apply
`value ← (value + yearly_savings) * (1 + growth_rate)` a given number of
times. -/
def projectLoop (yearly_savings growth_rate : ℚ) : Nat → ℚ → ℚ
  | 0, value => value
  | n + 1, value =>
      projectLoop yearly_savings growth_rate n ((value + yearly_savings) * (1 + growth_rate))

/-- The user-profile record returned by `build_user_profile`
(`app.py` lines 61-77).  The field `debt_to_income` models the dict entry
for the debt-to-income ratio (the source's local variable of the same
name); it is `none` exactly when the source stores Python `None`. -/
structure UserProfile where
  name : String
  current_age : ℚ
  target_age : ℚ
  years_to_goal : ℚ
  annual_income : ℚ
  total_debt : ℚ
  avg_debt_rate_percent : ℚ
  total_assets : ℚ
  monthly_savings : ℚ
  yearly_savings : ℚ
  net_worth : ℚ
  risk_appetite : String
  growth_rate_assumed : ℚ
  projected_net_worth_at_goal : ℚ
  debt_to_income : Option ℚ
deriving DecidableEq

/-- The derived-value computation of `build_user_profile`
(`app.py` lines 49-77), once the seven numeric fields have been parsed and
the risk value validated. -/
def mkProfile (name : String)
    (current_age target_age income total_debt avg_debt_rate assets monthly_savings : ℚ)
    (risk : String) : UserProfile :=
  let years_to_goal := max (target_age - current_age) 0
  let net_worth := assets - total_debt
  let yearly_savings := monthly_savings * 12
  let debt_to_income := if 0 < income then some (total_debt / income) else none
  let growth_rate := growthRateMap risk
  let projected_net_worth :=
    projectLoop yearly_savings growth_rate (pyInt years_to_goal).toNat net_worth
  { name := name, current_age := current_age, target_age := target_age,
    years_to_goal := years_to_goal, annual_income := income,
    total_debt := total_debt, avg_debt_rate_percent := avg_debt_rate,
    total_assets := assets, monthly_savings := monthly_savings,
    yearly_savings := yearly_savings, net_worth := net_worth,
    risk_appetite := risk, growth_rate_assumed := growth_rate,
    projected_net_worth_at_goal := projected_net_worth,
    debt_to_income := debt_to_income }

/-- Translation of `build_user_profile` (`app.py` lines 34-77): parse the
seven required numeric fields in declaration order (each `parse_float`
failure propagates immediately), validate the risk choice, then assemble
the profile. -/
def build_user_profile (form : Form) : Except String UserProfile := do
  let current_age ← parse_float form "current_age" "Current age"
  let target_age ← parse_float form "target_age" "Target age"
  let income ← parse_float form "income" "Annual after-tax income"
  let total_debt ← parse_float form "total_debt" "Total debt"
  let avg_debt_rate ← parse_float form "avg_debt_rate" "Average debt interest rate"
  let assets ← parse_float form "assets" "Total financial assets"
  let monthly_savings ← parse_float form "monthly_savings" "Monthly savings"
  if riskOf form ∈ validRisks then
    pure (mkProfile (nameOf form) current_age target_age income total_debt
      avg_debt_rate assets monthly_savings (riskOf form))
  else
    Except.error "Please choose a valid risk appetite option."

/-- All seven required numeric fields of a form parse successfully. -/
def allParsesOk (form : Form) : Prop :=
  ∀ s ∈ requiredFields, ∃ q, parse_float form s.1 s.2 = Except.ok q

/-- A price history returned by the market-data provider: rows of
(date, closing price), in chronological order, as `yf.download` delivers
them.  The provider itself is external; callers receive it as a function
`String → Except String History` where `Except.error` models a raised
fetch exception. -/
abbrev History := List (String × ℚ)

/-- One snapshot entry (`app.py` lines 89-109): either a success record
with dates, prices and the 90-day percentage change, or a failure record
with a label and an error message. -/
inductive SymRecord where
  | success (label start_date end_date : String) (start_price end_price pct_change_90d : ℚ)
  | failure (label msg : String)
deriving DecidableEq

/-- The fixed symbol list of `app.py` lines 15-19. -/
def MARKET_SYMBOLS : List (String × String) :=
  [("^GSPC", "S&P 500"), ("VTI", "Total US Stock Market"),
   ("BND", "Total US Bond Market")]

/-- The loop body of `fetch_market_snapshot` (`app.py` lines 87-109) for a
single symbol: one download attempt; an empty history or a raised
exception becomes a failure record, otherwise the first and last closes
are compared. -/
def fetchOne (download : String → Except String History)
    (symbol label : String) : SymRecord :=
  match download symbol with
  | Except.error exc => SymRecord.failure label exc
  | Except.ok history =>
    match history with
    | [] => SymRecord.failure label "No data returned for this period."
    | row :: rest =>
      let lastRow := (row :: rest).getLast (List.cons_ne_nil row rest)
      SymRecord.success label row.1 lastRow.1 row.2 lastRow.2
        ((lastRow.2 - row.2) / row.2 * 100)

/-- The loop of `fetch_market_snapshot` over a symbol list: builds the
snapshot (an insertion-ordered mapping, as a Python dict is) together with
the trace of symbols for which a download was attempted, in order. -/
def fetchSteps (download : String → Except String History) :
    List (String × String) → List (String × SymRecord) × List String
  | [] => ([], [])
  | (symbol, label) :: rest =>
      let record := fetchOne download symbol label
      let tail := fetchSteps download rest
      ((symbol, record) :: tail.1, symbol :: tail.2)

/-- Translation of `fetch_market_snapshot` (`app.py` lines 80-111): first
component is the returned snapshot, second the download-attempt trace. -/
def fetch_market_snapshot (download : String → Except String History) :
    List (String × SymRecord) × List String :=
  fetchSteps download MARKET_SYMBOLS

/-- Round a rational to the nearest integer, ties to even — the rounding
Python's fixed-point string formatting performs. -/
def roundHalfEven (q : ℚ) : Int :=
  let f := ⌊q⌋
  let r := q - f
  if r < 1/2 then f
  else if 1/2 < r then f + 1
  else if f % 2 = 0 then f else f + 1

/-- Insert a comma after every third digit of a reversed digit list. -/
def groupAux : List Char → Nat → List Char
  | [], _ => []
  | c :: t, k =>
      if k ≠ 0 && k % 3 == 0 then ',' :: c :: groupAux t (k + 1)
      else c :: groupAux t (k + 1)

/-- Thousands grouping of an integer digit string, as Python's `:,` format
flag produces. -/
def groupThousands (ds : List Char) : List Char :=
  (groupAux ds.reverse 0).reverse

/-- Python's fixed-point float formatting `:.Nf` (with `:,` grouping when
`grouped` is true), exact on rationals. -/
def formatFixed (q : ℚ) (decimals : Nat) (grouped : Bool) : String :=
  let n := roundHalfEven (q * qpow 10 decimals)
  let ds := (Nat.repr n.natAbs).toList
  let ds := if ds.length < decimals + 1 then
      List.replicate (decimals + 1 - ds.length) '0' ++ ds
    else ds
  let intDigits := ds.take (ds.length - decimals)
  let fracDigits := ds.drop (ds.length - decimals)
  let intPart := if grouped then groupThousands intDigits else intDigits
  let body := if decimals = 0 then intPart else intPart ++ '.' :: fracDigits
  String.mk (if n < 0 then '-' :: body else body)

/-- The currency formatting `f"${value:,.2f}"` used throughout the summary. -/
def formatCurrency (q : ℚ) : String :=
  "$" ++ formatFixed q 2 true

/-- Modelled from the spec: Python's default string rendering of a float
(used by the two plain interpolations in the summary).  Exact for integral
values; a fixed-point decimal approximation otherwise, since the shortest
round-trip rendering of a binary double has no rational counterpart. -/
def qRepr (q : ℚ) : String :=
  if q.den = 1 then
    (if q < 0 then "-" else "") ++ Nat.repr q.num.natAbs ++ ".0"
  else formatFixed q 6 false

/-- Translation of `summarize_for_model` (`app.py` lines 114-160): the
deterministic text block handed to the language model. -/
def summarize_for_model (profile : UserProfile)
    (market_data : List (String × SymRecord)) : String :=
  let lines := [
    "USER FINANCIAL PROFILE:",
    "- Name: " ++ profile.name,
    "- Current age: " ++ qRepr profile.current_age,
    "- Target retirement age: " ++ qRepr profile.target_age,
    "- Years until goal: " ++ formatFixed profile.years_to_goal 1 false,
    "- Annual after-tax income: " ++ formatCurrency profile.annual_income,
    "- Total debt: " ++ formatCurrency profile.total_debt,
    "- Average debt interest rate: " ++ formatFixed profile.avg_debt_rate_percent 2 false ++ "%",
    "- Total assets: " ++ formatCurrency profile.total_assets,
    "- Monthly savings: " ++ formatCurrency profile.monthly_savings,
    "- Yearly savings: " ++ formatCurrency profile.yearly_savings,
    "- Net worth (assets - debt): " ++ formatCurrency profile.net_worth]
  let dtiLine := match profile.debt_to_income with
    | some r => "- Debt-to-income ratio: " ++ formatFixed r 2 false
        ++ " (total debt / annual income)"
    | none => "- Debt-to-income ratio: N/A (income is zero or not provided)"
  let tailLines := [
    "- Risk appetite: " ++ profile.risk_appetite,
    "- Simple assumed growth rate based on risk: "
      ++ formatFixed (profile.growth_rate_assumed * 100) 2 false ++ "%",
    "- Rough projected net worth at target age: "
      ++ formatCurrency profile.projected_net_worth_at_goal,
    "",
    "MARKET SNAPSHOT (last ~90 days):"]
  let marketLines := market_data.map (fun entry =>
    match entry.2 with
    | SymRecord.failure label msg =>
        "- " ++ label ++ " (" ++ entry.1 ++ "): error fetching data: " ++ msg
    | SymRecord.success label sd ed sp ep pct =>
        "- " ++ label ++ " (" ++ entry.1 ++ "): " ++ sd ++ " close=$"
          ++ formatFixed sp 2 false ++ ", " ++ ed ++ " close=$"
          ++ formatFixed ep 2 false ++ ", " ++ formatFixed pct 2 false
          ++ "% change over 90 days")
  String.intercalate "\n" (lines ++ dtiLine :: tailLines ++ marketLines)

/-- The response object of the language-model provider, as far as
`call_gpt` inspects it: `output` items each carrying content-block texts,
plus the raw stringification used as a fallback. -/
structure ModelResponse where
  output : List (List String)
  raw : String
deriving DecidableEq

/-- The extraction `response.output[0].content[0].text` of `app.py`
lines 210-213, falling back to `str(response)` when that path is absent. -/
def extractText (r : ModelResponse) : String :=
  match r.output with
  | (t :: _) :: _ => t
  | _ => r.raw

/-- The model-name configuration of `app.py` line 14:
`os.getenv("OPENAI_MODEL", "gpt-4.1-mini")`. -/
def gptModel (env : String → Option String) : String :=
  (env "OPENAI_MODEL").getD "gpt-4.1-mini"

/-- What one invocation of `call_gpt` did: its result, whether the OpenAI
client object was constructed, and how many requests went out to the
provider. -/
structure GptOutcome where
  result : Except String String
  client_constructed : Bool
  requests_sent : Nat

/-- The fixed system instruction of `app.py` lines 173-178. -/
def systemPrompt : String :=
  "You are a cautious but helpful personal finance educator (NOT an advisor). "
  ++ "You explain concepts in simple language. You must not provide personalized "
  ++ "financial advice, but you can offer educational scenarios, tradeoffs, and "
  ++ "example asset allocations. Always include clear disclaimers."

/-- The fixed task template of `app.py` lines 180-200, with the summary
interpolated. -/
def userPrompt (user_summary : String) : String :=
  "\nHere is structured information about a user's finances and a tiny market snapshot.\n\n"
  ++ user_summary
  ++ "\n\nTASK:\n1. Briefly restate the user's situation and time horizon.\n"
  ++ "2. Comment at a high level on the market snapshot (ONLY educational, no predictions).\n"
  ++ "3. Provide 2–3 educational retirement investing scenarios appropriate to their time horizon\n"
  ++ "   and risk appetite. For each scenario, include a sample asset mix, pros/cons, and the type\n"
  ++ "   of person it generally fits.\n"
  ++ "4. Give 3–5 simple, practical habits they could focus on: savings rate, debt payoff,\n"
  ++ "   diversification, emergency fund, etc.\n"
  ++ "5. End with a bold-looking disclaimer (ALL CAPS) stating this is not financial, legal,\n"
  ++ "   or tax advice and that they should consider a licensed professional.\n"
  ++ "\nIMPORTANT:\n- Do NOT recommend specific tickers or products.\n"
  ++ "- Speak in plain English and keep it friendly and encouraging.\n"
  ++ "- Make it clear that markets are uncertain and past performance does not guarantee future results.\n"

/-- Translation of `call_gpt` (`app.py` lines 163-213).  `env` is the
process environment; `respond` is the external provider transport, taking
the model name and the two role/content messages.  When the credential is
missing or empty (`if not api_key`), the function fails with the
configuration error before the client is constructed and before any
request is sent. -/
def call_gpt (env : String → Option String)
    (respond : String → List (String × String) → ModelResponse)
    (user_summary : String) : GptOutcome :=
  let missing : GptOutcome :=
    { result := Except.error
        "OPENAI_API_KEY is not set. Add it to your .env file before running the app.",
      client_constructed := false, requests_sent := 0 }
  match env "OPENAI_API_KEY" with
  | none => missing
  | some key =>
      if key = "" then missing
      else
        let response := respond (gptModel env)
          [("system", systemPrompt), ("user", userPrompt user_summary)]
        { result := Except.ok (extractText response),
          client_constructed := true, requests_sent := 1 }

/-- What the POST branch of the `index` handler did with one request:
flashed messages, the values passed to the template, and how many times
each external collaborator was invoked. -/
structure HandlerTrace where
  flashes : List String
  profile : Option UserProfile
  market_data : Option (List (String × SymRecord))
  summary : Option String
  gpt_text : Option String
  gpt_error : Option String
  market_fetches : Nat
  gpt_invocations : Nat
deriving DecidableEq

/-- Translation of the POST branch of `index` (`app.py` lines 235-251):
a `ValueError` from `build_user_profile` is flashed and the request stops
before any external call; otherwise the snapshot is fetched once, the
summary built, and `call_gpt` invoked once, its failure being flashed as
the generic OpenAI notice. -/
def index_post (form : Form) (download : String → Except String History)
    (env : String → Option String)
    (respond : String → List (String × String) → ModelResponse) : HandlerTrace :=
  match build_user_profile form with
  | Except.error e =>
      { flashes := [e], profile := none, market_data := none, summary := none,
        gpt_text := none, gpt_error := none, market_fetches := 0,
        gpt_invocations := 0 }
  | Except.ok p =>
      let md := (fetch_market_snapshot download).1
      let s := summarize_for_model p md
      let g := call_gpt env respond s
      match g.result with
      | Except.ok t =>
          { flashes := [], profile := some p, market_data := some md,
            summary := some s, gpt_text := some t, gpt_error := none,
            market_fetches := 1, gpt_invocations := 1 }
      | Except.error msg =>
          { flashes := ["The OpenAI request failed. Check your API key, quota, or logs for details."],
            profile := some p, market_data := some md, summary := some s,
            gpt_text := none, gpt_error := some msg, market_fetches := 1,
            gpt_invocations := 1 }

/-! Concrete inputs used to instantiate the theorems below. -/

/-- A form whose goal age lies five years in the past (risk field absent). -/
def w1Form : Form :=
  ⟨[("current_age", "70"), ("target_age", "65"), ("income", "50000"),
    ("total_debt", "500"), ("avg_debt_rate", "5"), ("assets", "2000"),
    ("monthly_savings", "100")]⟩

/-- The profile `w1Form` produces. -/
def w1Profile : UserProfile :=
  { name := "User", current_age := 70, target_age := 65, years_to_goal := 0,
    annual_income := 50000, total_debt := 500, avg_debt_rate_percent := 5,
    total_assets := 2000, monthly_savings := 100, yearly_savings := 1200,
    net_worth := 1500, risk_appetite := "moderate", growth_rate_assumed := 0.06,
    projected_net_worth_at_goal := 1500, debt_to_income := some (1/100) }

/-- The worked example of the specification: ages 30 → 31, assets 10000,
no debt, 1000 saved monthly, conservative risk. -/
def exampleForm : Form :=
  ⟨[("name", "Alice"), ("current_age", "30"), ("target_age", "31"),
    ("income", "50000"), ("total_debt", "0"), ("avg_debt_rate", "4"),
    ("assets", "10000"), ("monthly_savings", "1000"), ("risk", "conservative")]⟩

/-- The profile `exampleForm` produces. -/
def exampleProfile : UserProfile :=
  { name := "Alice", current_age := 30, target_age := 31, years_to_goal := 1,
    annual_income := 50000, total_debt := 0, avg_debt_rate_percent := 4,
    total_assets := 10000, monthly_savings := 1000, yearly_savings := 12000,
    net_worth := 10000, risk_appetite := "conservative",
    growth_rate_assumed := 0.03, projected_net_worth_at_goal := 22660,
    debt_to_income := some 0 }

/-- A fully numeric form with an unrecognised risk choice. -/
def yoloForm : Form :=
  ⟨[("current_age", "30"), ("target_age", "31"), ("income", "50000"),
    ("total_debt", "0"), ("avg_debt_rate", "4"), ("assets", "10000"),
    ("monthly_savings", "1000"), ("risk", "yolo")]⟩

/-- A form whose income field is missing entirely. -/
def incompleteForm : Form :=
  ⟨[("current_age", "30"), ("target_age", "31"), ("total_debt", "0")]⟩

/-- A form whose income field is present but blank. -/
def w7Form : Form :=
  ⟨[("current_age", "30"), ("target_age", "31"), ("income", "")]⟩

/-- A form with negative values everywhere and an upper-case risk choice. -/
def negForm : Form :=
  ⟨[("current_age", "-5"), ("target_age", "-40"), ("income", "-1"),
    ("total_debt", "-3"), ("avg_debt_rate", "0"), ("assets", "-7"),
    ("monthly_savings", "-2"), ("risk", "AGGRESSIVE")]⟩

/-- A market-data provider that fails on `VTI` only. -/
def dlEx : String → Except String History := fun symbol =>
  if symbol = "VTI" then Except.error "network down"
  else Except.ok [("2025-07-14", 100), ("2025-10-10", 110)]

/-- A market-data provider that always fails. -/
def dlOffline : String → Except String History := fun _ => Except.error "offline"

/-- An environment with no variables set. -/
def envEmpty : String → Option String := fun _ => none

/-- A model transport returning a response with no output items. -/
def respondNone : String → List (String × String) → ModelResponse :=
  fun _ _ => ⟨[], "resp"⟩

/-! Helper lemmas about the embedding. -/

theorem except_bind_ok {ε α β : Type} (x : Except ε α) (g : α → Except ε β) (b : β) :
    x >>= g = Except.ok b ↔ ∃ a, x = Except.ok a ∧ g a = Except.ok b := by
  cases x with
  | error e => simp [Bind.bind, Except.bind]
  | ok a => simp [Bind.bind, Except.bind]

theorem ok_bind {ε α β : Type} (a : α) (g : α → Except ε β) :
    (Except.ok a : Except ε α) >>= g = g a := rfl

theorem error_bind {ε α β : Type} (e : ε) (g : α → Except ε β) :
    (Except.error e : Except ε α) >>= g = Except.error e := rfl

theorem char_ws_cases (c : Char) (h : c.isWhitespace = true) :
    c = ' ' ∨ c = '\t' ∨ c = '\r' ∨ c = '\n' := by
  simp [Char.isWhitespace] at h; tauto

theorem digit_not_ws (c : Char) (hc : c.isDigit = true) : c.isWhitespace = false := by
  cases hw : c.isWhitespace
  · rfl
  · rcases char_ws_cases c hw with rfl | rfl | rfl | rfl <;> exact absurd hc (by decide)

theorem digit_ne (c d : Char) (hc : c.isDigit = true) (hd : d.isDigit = false) : c ≠ d := by
  intro h
  subst h
  simp [hd] at hc

theorem dropWhile_eq_self_of (p : Char → Bool) :
    ∀ cs : List Char, (∀ x ∈ cs, p x = false) → cs.dropWhile p = cs
  | [], _ => rfl
  | c :: t, h => by
      have hpc : ¬(p c = true) := by simp [h c (List.mem_cons_self c t)]
      rw [List.dropWhile_cons, if_neg hpc]

theorem pyStrip_of_no_ws (cs : List Char) (h : ∀ x ∈ cs, x.isWhitespace = false) :
    pyStrip (String.mk cs) = String.mk cs := by
  unfold pyStrip
  have h1 : (String.mk cs).toList = cs := rfl
  rw [h1, dropWhile_eq_self_of _ cs h,
    dropWhile_eq_self_of _ cs.reverse (fun x hx => h x (List.mem_reverse.mp hx)),
    List.reverse_reverse]

theorem stripCommas_of (cs : List Char) (h : ∀ x ∈ cs, (x != ',') = true) :
    stripCommas (String.mk cs) = String.mk cs := by
  unfold stripCommas
  have h1 : (String.mk cs).toList = cs := rfl
  rw [h1, List.filter_eq_self.mpr h]

theorem plain_no_ws (cs : List Char) (h : ∀ x ∈ cs, x.isDigit = true ∨ x = '-') :
    ∀ x ∈ cs, x.isWhitespace = false := by
  intro x hx
  rcases h x hx with hd | rfl
  · exact digit_not_ws x hd
  · decide

theorem plain_no_comma (cs : List Char) (h : ∀ x ∈ cs, x.isDigit = true ∨ x = '-') :
    ∀ x ∈ cs, (x != ',') = true := by
  intro x hx
  rcases h x hx with hd | rfl
  · simpa [bne_iff_ne] using digit_ne x ',' hd (by decide)
  · decide

theorem mk_ne_empty (cs : List Char) (h : cs ≠ []) : String.mk cs ≠ "" := by
  intro he
  have h2 : (String.mk cs).data = ("" : String).data := congrArg String.data he
  exact h h2

theorem normRaw_plain (cs : List Char) (h : ∀ x ∈ cs, x.isDigit = true ∨ x = '-') :
    normRaw (some (String.mk cs)) = String.mk cs := by
  unfold normRaw
  simp only [Option.getD_some]
  rw [stripCommas_of cs (plain_no_comma cs h), pyStrip_of_no_ws cs (plain_no_ws cs h)]

theorem splitSign_digit (c : Char) (t : List Char) (hc : c.isDigit = true) :
    splitSign (c :: t) = (1, c :: t) := by
  have h1 : c ≠ '+' := digit_ne c '+' hc (by decide)
  have h2 : c ≠ '-' := digit_ne c '-' hc (by decide)
  simp [splitSign, h1, h2]

theorem splitSign_neg (cs : List Char) : splitSign ('-' :: cs) = (-1, cs) := by
  simp [splitSign]

theorem digit_not_eE (x : Char) (hx : x.isDigit = true) : (x != 'e' && x != 'E') = true := by
  have e1 : x ≠ 'e' := digit_ne x 'e' hx (by decide)
  have e2 : x ≠ 'E' := digit_ne x 'E' hx (by decide)
  simp [e1, e2]

theorem digit_not_dot (x : Char) (hx : x.isDigit = true) : (x != '.') = true := by
  have e1 : x ≠ '.' := digit_ne x '.' hx (by decide)
  simp [e1]

theorem parseMantissa_digits (cs : List Char) (hne : cs ≠ []) (hd : isDigits cs = true) :
    parseMantissa cs = some (natOfDigits cs, 0) := by
  have hall : ∀ x ∈ cs, x.isDigit = true := List.all_eq_true.mp hd
  have hdot : ∀ x ∈ cs, (x != '.') = true := fun x hx => digit_not_dot x (hall x hx)
  unfold parseMantissa
  rw [List.takeWhile_eq_self_iff.mpr hdot, List.dropWhile_eq_nil_iff.mpr hdot]
  simp [hd, hne, List.isEmpty_iff]

theorem pyFloatAux_digits (cs : List Char) (hne : cs ≠ []) (hd : isDigits cs = true) :
    pyFloatAux cs = some ((natOfDigits cs : ℚ)) := by
  obtain ⟨c, t, rfl⟩ : ∃ c t, cs = c :: t := by
    cases cs with
    | nil => exact absurd rfl hne
    | cons c t => exact ⟨c, t, rfl⟩
  have hall : ∀ x ∈ c :: t, x.isDigit = true := List.all_eq_true.mp hd
  have heE : ∀ x ∈ c :: t, (x != 'e' && x != 'E') = true :=
    fun x hx => digit_not_eE x (hall x hx)
  simp only [pyFloatAux, splitSign_digit c t (hall c (List.mem_cons_self c t)),
    List.takeWhile_eq_self_iff.mpr heE, List.dropWhile_eq_nil_iff.mpr heE,
    parseMantissa_digits (c :: t) hne hd]
  simp [qpow, qpowz]

theorem pyFloatAux_neg_digits (cs : List Char) (hne : cs ≠ []) (hd : isDigits cs = true) :
    pyFloatAux ('-' :: cs) = some (-(natOfDigits cs : ℚ)) := by
  have hall : ∀ x ∈ cs, x.isDigit = true := List.all_eq_true.mp hd
  have heE : ∀ x ∈ cs, (x != 'e' && x != 'E') = true :=
    fun x hx => digit_not_eE x (hall x hx)
  simp only [pyFloatAux, splitSign_neg cs,
    List.takeWhile_eq_self_iff.mpr heE, List.dropWhile_eq_nil_iff.mpr heE,
    parseMantissa_digits cs hne hd]
  simp [qpow, qpowz]

theorem parse_float_digits (form : Form) (field label : String) (cs : List Char)
    (hget : form.get field = some (String.mk cs)) (hne : cs ≠ [])
    (hd : isDigits cs = true) :
    parse_float form field label = Except.ok ((natOfDigits cs : ℚ)) := by
  have hplain : ∀ x ∈ cs, x.isDigit = true ∨ x = '-' :=
    fun x hx => Or.inl (List.all_eq_true.mp hd x hx)
  unfold parse_float
  rw [hget, normRaw_plain cs hplain]
  rw [if_neg (mk_ne_empty cs hne)]
  have hpf : pyFloat (String.mk cs) = pyFloatAux cs := rfl
  rw [hpf, pyFloatAux_digits cs hne hd]

theorem parse_float_neg_digits (form : Form) (field label : String) (cs : List Char)
    (hget : form.get field = some (String.mk ('-' :: cs))) (hne : cs ≠ [])
    (hd : isDigits cs = true) :
    parse_float form field label = Except.ok (-(natOfDigits cs : ℚ)) := by
  have hplain : ∀ x ∈ '-' :: cs, x.isDigit = true ∨ x = '-' := by
    intro x hx
    rcases List.mem_cons.mp hx with rfl | hx2
    · exact Or.inr rfl
    · exact Or.inl (List.all_eq_true.mp hd x hx2)
  unfold parse_float
  rw [hget, normRaw_plain _ hplain]
  rw [if_neg (mk_ne_empty _ (List.cons_ne_nil _ _))]
  have hpf : pyFloat (String.mk ('-' :: cs)) = pyFloatAux ('-' :: cs) := rfl
  rw [hpf, pyFloatAux_neg_digits cs hne hd]

theorem build_ok_iff (f : Form) (p : UserProfile) :
    build_user_profile f = Except.ok p ↔
      ∃ ca ta inc td adr ast ms,
        parse_float f "current_age" "Current age" = Except.ok ca ∧
        parse_float f "target_age" "Target age" = Except.ok ta ∧
        parse_float f "income" "Annual after-tax income" = Except.ok inc ∧
        parse_float f "total_debt" "Total debt" = Except.ok td ∧
        parse_float f "avg_debt_rate" "Average debt interest rate" = Except.ok adr ∧
        parse_float f "assets" "Total financial assets" = Except.ok ast ∧
        parse_float f "monthly_savings" "Monthly savings" = Except.ok ms ∧
        riskOf f ∈ validRisks ∧
        p = mkProfile (nameOf f) ca ta inc td adr ast ms (riskOf f) := by
  unfold build_user_profile
  constructor
  · intro h
    rcases (except_bind_ok _ _ _).mp h with ⟨ca, hca, h⟩
    rcases (except_bind_ok _ _ _).mp h with ⟨ta, hta, h⟩
    rcases (except_bind_ok _ _ _).mp h with ⟨inc, hinc, h⟩
    rcases (except_bind_ok _ _ _).mp h with ⟨td, htd, h⟩
    rcases (except_bind_ok _ _ _).mp h with ⟨adr, hadr, h⟩
    rcases (except_bind_ok _ _ _).mp h with ⟨ast, hast, h⟩
    rcases (except_bind_ok _ _ _).mp h with ⟨ms, hms, h⟩
    by_cases hr : riskOf f ∈ validRisks
    · rw [if_pos hr] at h
      have hp : Except.ok (mkProfile (nameOf f) ca ta inc td adr ast ms (riskOf f))
          = Except.ok p := h
      exact ⟨ca, ta, inc, td, adr, ast, ms, hca, hta, hinc, htd, hadr, hast, hms,
        hr, (Except.ok.inj hp).symm⟩
    · rw [if_neg hr] at h
      cases h
  · rintro ⟨ca, ta, inc, td, adr, ast, ms, hca, hta, hinc, htd, hadr, hast, hms, hr, rfl⟩
    simp only [hca, hta, hinc, htd, hadr, hast, hms, ok_bind, if_pos hr]
    rfl

theorem parse_float_q (form : Form) (field label : String) (cs : List Char) (q : ℚ)
    (hget : form.get field = some (String.mk cs)) (hne : cs ≠ [])
    (hd : isDigits cs = true) (hval : (natOfDigits cs : ℚ) = q) :
    parse_float form field label = Except.ok q := by
  rw [parse_float_digits form field label cs hget hne hd, hval]

theorem parse_float_error_shape (form : Form) (field label e : String)
    (h : parse_float form field label = Except.error e) :
    (normRaw (form.get field) = "" ∧ e = label ++ " is required.") ∨
    (normRaw (form.get field) ≠ "" ∧ pyFloat (normRaw (form.get field)) = none ∧
      e = label ++ " must be a number.") := by
  simp only [parse_float] at h
  by_cases hraw : normRaw (form.get field) = ""
  · rw [if_pos hraw] at h
    exact Or.inl ⟨hraw, (Except.error.inj h).symm⟩
  · rw [if_neg hraw] at h
    cases hpf : pyFloat (normRaw (form.get field)) with
    | some q => simp [hpf] at h
    | none =>
        simp only [hpf] at h
        exact Or.inr ⟨hraw, rfl, (Except.error.inj h).symm⟩

theorem w1_build : build_user_profile w1Form = Except.ok w1Profile := by
  apply (build_ok_iff w1Form w1Profile).mpr
  refine ⟨70, 65, 50000, 500, 5, 2000, 100, ?_, ?_, ?_, ?_, ?_, ?_, ?_, by decide, ?_⟩
  · exact parse_float_q w1Form "current_age" "Current age" ['7','0'] 70 rfl (by decide)
      (by decide) (by norm_num [(by decide : natOfDigits ['7','0'] = 70)])
  · exact parse_float_q w1Form "target_age" "Target age" ['6','5'] 65 rfl (by decide)
      (by decide) (by norm_num [(by decide : natOfDigits ['6','5'] = 65)])
  · exact parse_float_q w1Form "income" "Annual after-tax income" ['5','0','0','0','0'] 50000
      rfl (by decide) (by decide)
      (by norm_num [(by decide : natOfDigits ['5','0','0','0','0'] = 50000)])
  · exact parse_float_q w1Form "total_debt" "Total debt" ['5','0','0'] 500 rfl (by decide)
      (by decide) (by norm_num [(by decide : natOfDigits ['5','0','0'] = 500)])
  · exact parse_float_q w1Form "avg_debt_rate" "Average debt interest rate" ['5'] 5 rfl
      (by decide) (by decide) (by norm_num [(by decide : natOfDigits ['5'] = 5)])
  · exact parse_float_q w1Form "assets" "Total financial assets" ['2','0','0','0'] 2000 rfl
      (by decide) (by decide) (by norm_num [(by decide : natOfDigits ['2','0','0','0'] = 2000)])
  · exact parse_float_q w1Form "monthly_savings" "Monthly savings" ['1','0','0'] 100 rfl
      (by decide) (by decide) (by norm_num [(by decide : natOfDigits ['1','0','0'] = 100)])
  · have hn : nameOf w1Form = "User" := by decide
    have hr : riskOf w1Form = "moderate" := by decide
    rw [hn, hr]
    have hy : max ((65:ℚ) - 70) 0 = 0 := by norm_num
    have hpi : pyInt (0:ℚ) = 0 := by simp [pyInt]
    unfold w1Profile mkProfile
    norm_num [growthRateMap, hy, hpi, projectLoop, UserProfile.mk.injEq, Option.some.injEq,
      (by decide : ("moderate" : String) ≠ "conservative")]

theorem example_build : build_user_profile exampleForm = Except.ok exampleProfile := by
  apply (build_ok_iff exampleForm exampleProfile).mpr
  refine ⟨30, 31, 50000, 0, 4, 10000, 1000, ?_, ?_, ?_, ?_, ?_, ?_, ?_, by decide, ?_⟩
  · exact parse_float_q exampleForm "current_age" "Current age" ['3','0'] 30 rfl (by decide)
      (by decide) (by norm_num [(by decide : natOfDigits ['3','0'] = 30)])
  · exact parse_float_q exampleForm "target_age" "Target age" ['3','1'] 31 rfl (by decide)
      (by decide) (by norm_num [(by decide : natOfDigits ['3','1'] = 31)])
  · exact parse_float_q exampleForm "income" "Annual after-tax income" ['5','0','0','0','0']
      50000 rfl (by decide) (by decide)
      (by norm_num [(by decide : natOfDigits ['5','0','0','0','0'] = 50000)])
  · exact parse_float_q exampleForm "total_debt" "Total debt" ['0'] 0 rfl (by decide)
      (by decide) (by norm_num [(by decide : natOfDigits ['0'] = 0)])
  · exact parse_float_q exampleForm "avg_debt_rate" "Average debt interest rate" ['4'] 4 rfl
      (by decide) (by decide) (by norm_num [(by decide : natOfDigits ['4'] = 4)])
  · exact parse_float_q exampleForm "assets" "Total financial assets" ['1','0','0','0','0']
      10000 rfl (by decide) (by decide)
      (by norm_num [(by decide : natOfDigits ['1','0','0','0','0'] = 10000)])
  · exact parse_float_q exampleForm "monthly_savings" "Monthly savings" ['1','0','0','0'] 1000
      rfl (by decide) (by decide)
      (by norm_num [(by decide : natOfDigits ['1','0','0','0'] = 1000)])
  · have hn : nameOf exampleForm = "Alice" := by decide
    have hr : riskOf exampleForm = "conservative" := by decide
    rw [hn, hr]
    have hy : max ((31:ℚ) - 30) 0 = 1 := by norm_num
    have hpi : pyInt (1:ℚ) = 1 := by simp [pyInt]
    unfold exampleProfile mkProfile
    norm_num [growthRateMap, hy, hpi, projectLoop, UserProfile.mk.injEq, Option.some.injEq]

/-- C1: for every validated profile, `projected_net_worth_at_goal` is the
result of starting from `net_worth` and applying
`value ← (value + yearly_savings) * (1 + growth_rate_assumed)` exactly
`int(years_to_goal)` times (truncation toward zero); when
`years_to_goal < 1` the loop runs zero times and the projection equals
`net_worth`. -/
theorem build_projection_spec (f : Form) (p : UserProfile)
    (h : build_user_profile f = Except.ok p) :
    p.projected_net_worth_at_goal =
      projectLoop p.yearly_savings p.growth_rate_assumed
        (pyInt p.years_to_goal).toNat p.net_worth ∧
    (p.years_to_goal < 1 → p.projected_net_worth_at_goal = p.net_worth) := by
  rcases (build_ok_iff f p).mp h with
    ⟨ca, ta, inc, td, adr, ast, ms, _, _, _, _, _, _, _, _, rfl⟩
  constructor
  · rfl
  · intro hlt
    have hy0 : (0:ℚ) ≤ max (ta - ca) 0 := le_max_right _ _
    have hlt2 : max (ta - ca) 0 < 1 := hlt
    have hfl : ⌊max (ta - ca) 0⌋ = 0 :=
      Int.floor_eq_zero_iff.mpr (Set.mem_Ico.mpr ⟨hy0, hlt2⟩)
    have hpi : pyInt (max (ta - ca) 0) = 0 := by
      unfold pyInt
      rw [if_pos hy0, hfl]
    show projectLoop (ms * 12) (growthRateMap (riskOf f))
      (pyInt (max (ta - ca) 0)).toNat (ast - td) = ast - td
    rw [hpi]
    rfl

/-- Witness for C1 at `w1Form`, whose goal age lies in the past. -/
theorem build_projection_spec_witness :
    build_user_profile w1Form = Except.ok w1Profile ∧
    w1Profile.projected_net_worth_at_goal =
      projectLoop w1Profile.yearly_savings w1Profile.growth_rate_assumed
        (pyInt w1Profile.years_to_goal).toNat w1Profile.net_worth ∧
    (w1Profile.years_to_goal < 1 →
      w1Profile.projected_net_worth_at_goal = w1Profile.net_worth) :=
  ⟨w1_build, (build_projection_spec w1Form w1Profile w1_build).1,
    (build_projection_spec w1Form w1Profile w1_build).2⟩

/-- C2: on the specification's worked example (ages 30 → 31, assets 10000,
no debt, 1000 saved monthly, conservative risk), `build_user_profile`
yields `net_worth = 10000` and
`projected_net_worth_at_goal = (10000 + 12000) * 1.03 = 22660` exactly. -/
theorem example_net_worth_and_projection :
    (build_user_profile exampleForm).map
      (fun p => (p.net_worth, p.projected_net_worth_at_goal)) =
    Except.ok ((10000 : ℚ), (22660 : ℚ)) := by
  rw [example_build]
  rfl

/-- C3: every successfully built profile has
`years_to_goal = max(target_age - current_age, 0)`, hence never negative. -/
theorem years_to_goal_clamped (f : Form) (p : UserProfile)
    (h : build_user_profile f = Except.ok p) :
    p.years_to_goal = max (p.target_age - p.current_age) 0 ∧ 0 ≤ p.years_to_goal := by
  rcases (build_ok_iff f p).mp h with
    ⟨ca, ta, inc, td, adr, ast, ms, _, _, _, _, _, _, _, _, rfl⟩
  exact ⟨rfl, le_max_right _ _⟩

/-- Witness for C3 at `w1Form`, where the target age precedes the current
age and the clamp yields zero. -/
theorem years_to_goal_clamped_witness :
    build_user_profile w1Form = Except.ok w1Profile ∧
    w1Profile.years_to_goal = max (w1Profile.target_age - w1Profile.current_age) 0 ∧
    0 ≤ w1Profile.years_to_goal :=
  ⟨w1_build, (years_to_goal_clamped w1Form w1Profile w1_build).1,
    (years_to_goal_clamped w1Form w1Profile w1_build).2⟩

/-- C5: in every successfully built profile, the debt-to-income ratio is
absent (`none`, not an error) exactly when `annual_income ≤ 0`, and equals
`total_debt / annual_income` whenever `annual_income > 0`. -/
theorem dti_defined_iff (f : Form) (p : UserProfile)
    (h : build_user_profile f = Except.ok p) :
    (p.debt_to_income = none ↔ p.annual_income ≤ 0) ∧
    (0 < p.annual_income →
      p.debt_to_income = some (p.total_debt / p.annual_income)) := by
  rcases (build_ok_iff f p).mp h with
    ⟨ca, ta, inc, td, adr, ast, ms, _, _, _, _, _, _, _, _, rfl⟩
  constructor
  · show (if 0 < inc then some (td / inc) else none) = none ↔ inc ≤ 0
    by_cases hinc : 0 < inc
    · rw [if_pos hinc]
      constructor
      · intro hx; exact absurd hx (by simp)
      · intro hle; linarith
    · rw [if_neg hinc]
      simp [le_of_not_lt hinc]
  · intro hpos
    have hpos2 : 0 < inc := hpos
    show (if 0 < inc then some (td / inc) else none) = some (td / inc)
    rw [if_pos hpos2]

/-- Witness for C5 at `w1Form`, whose income is positive. -/
theorem dti_defined_iff_witness :
    (w1Profile.debt_to_income = none ↔ w1Profile.annual_income ≤ 0) ∧
    (0 < w1Profile.annual_income →
      w1Profile.debt_to_income = some (w1Profile.total_debt / w1Profile.annual_income)) :=
  dti_defined_iff w1Form w1Profile w1_build

/-- C4: in every successfully built profile the growth rate is exactly
0.03 / 0.06 / 0.08 for (normalised) risk conservative / moderate /
aggressive, an absent risk field defaults to moderate, and any other risk
value makes `build_user_profile` fail with the risk-option error (it never
succeeds, and whenever the seven numeric fields parse, the reported error
is exactly the risk message, emitted before any projection exists). -/
theorem risk_mapping (f : Form) :
    (∀ p, build_user_profile f = Except.ok p →
      p.risk_appetite = riskOf f ∧
      (riskOf f = "conservative" → p.growth_rate_assumed = 0.03) ∧
      (riskOf f = "moderate" → p.growth_rate_assumed = 0.06) ∧
      (riskOf f = "aggressive" → p.growth_rate_assumed = 0.08) ∧
      (f.get "risk" = none → p.risk_appetite = "moderate")) ∧
    (riskOf f ∉ validRisks →
      (∀ p, build_user_profile f ≠ Except.ok p) ∧
      (allParsesOk f →
        build_user_profile f =
          Except.error "Please choose a valid risk appetite option.")) := by
  constructor
  · intro p h
    rcases (build_ok_iff f p).mp h with
      ⟨ca, ta, inc, td, adr, ast, ms, _, _, _, _, _, _, _, _, rfl⟩
    refine ⟨rfl, ?_, ?_, ?_, ?_⟩
    · intro hc
      show growthRateMap (riskOf f) = 0.03
      rw [hc]
      simp [growthRateMap]
    · intro hm
      show growthRateMap (riskOf f) = 0.06
      rw [hm]
      simp [growthRateMap]
    · intro ha
      show growthRateMap (riskOf f) = 0.08
      rw [ha]
      simp [growthRateMap]
    · intro hnone
      show riskOf f = "moderate"
      unfold riskOf
      rw [hnone]
      rfl
  · intro hr
    constructor
    · intro p h
      rcases (build_ok_iff f p).mp h with
        ⟨_, _, _, _, _, _, _, _, _, _, _, _, _, _, hr2, _⟩
      exact hr hr2
    · intro hall
      obtain ⟨ca, hca⟩ := hall ("current_age", "Current age") (by simp [requiredFields])
      obtain ⟨ta, hta⟩ := hall ("target_age", "Target age") (by simp [requiredFields])
      obtain ⟨inc, hinc⟩ := hall ("income", "Annual after-tax income") (by simp [requiredFields])
      obtain ⟨td, htd⟩ := hall ("total_debt", "Total debt") (by simp [requiredFields])
      obtain ⟨adr, hadr⟩ := hall ("avg_debt_rate", "Average debt interest rate")
        (by simp [requiredFields])
      obtain ⟨ast, hast⟩ := hall ("assets", "Total financial assets") (by simp [requiredFields])
      obtain ⟨ms, hms⟩ := hall ("monthly_savings", "Monthly savings") (by simp [requiredFields])
      have hca2 : parse_float f "current_age" "Current age" = Except.ok ca := hca
      have hta2 : parse_float f "target_age" "Target age" = Except.ok ta := hta
      have hinc2 : parse_float f "income" "Annual after-tax income" = Except.ok inc := hinc
      have htd2 : parse_float f "total_debt" "Total debt" = Except.ok td := htd
      have hadr2 : parse_float f "avg_debt_rate" "Average debt interest rate"
        = Except.ok adr := hadr
      have hast2 : parse_float f "assets" "Total financial assets" = Except.ok ast := hast
      have hms2 : parse_float f "monthly_savings" "Monthly savings" = Except.ok ms := hms
      unfold build_user_profile
      simp only [hca2, hta2, hinc2, htd2, hadr2, hast2, hms2, ok_bind, if_neg hr]

/-- Witness for C4 at `yoloForm`: risk `"yolo"` with all numeric fields
valid is rejected with the risk-option error. -/
theorem risk_mapping_witness :
    build_user_profile yoloForm = Except.error "Please choose a valid risk appetite option." :=
  ((risk_mapping yoloForm).2 (by decide)).2
    (by intro s hs; fin_cases hs <;> exact ⟨_, rfl⟩)

/-- C10: `build_user_profile` performs no range validation beyond numeric
parsing and the risk check — every form whose seven required fields parse
and whose risk is valid succeeds, even with negative ages, incomes, debts,
assets or savings, and with the target age before the current age. -/
theorem no_range_validation (f : Form) (hall : allParsesOk f)
    (hr : riskOf f ∈ validRisks) :
    ∃ p, build_user_profile f = Except.ok p := by
  obtain ⟨ca, hca⟩ := hall ("current_age", "Current age") (by simp [requiredFields])
  obtain ⟨ta, hta⟩ := hall ("target_age", "Target age") (by simp [requiredFields])
  obtain ⟨inc, hinc⟩ := hall ("income", "Annual after-tax income") (by simp [requiredFields])
  obtain ⟨td, htd⟩ := hall ("total_debt", "Total debt") (by simp [requiredFields])
  obtain ⟨adr, hadr⟩ := hall ("avg_debt_rate", "Average debt interest rate")
    (by simp [requiredFields])
  obtain ⟨ast, hast⟩ := hall ("assets", "Total financial assets") (by simp [requiredFields])
  obtain ⟨ms, hms⟩ := hall ("monthly_savings", "Monthly savings") (by simp [requiredFields])
  have hca2 : parse_float f "current_age" "Current age" = Except.ok ca := hca
  have hta2 : parse_float f "target_age" "Target age" = Except.ok ta := hta
  have hinc2 : parse_float f "income" "Annual after-tax income" = Except.ok inc := hinc
  have htd2 : parse_float f "total_debt" "Total debt" = Except.ok td := htd
  have hadr2 : parse_float f "avg_debt_rate" "Average debt interest rate"
    = Except.ok adr := hadr
  have hast2 : parse_float f "assets" "Total financial assets" = Except.ok ast := hast
  have hms2 : parse_float f "monthly_savings" "Monthly savings" = Except.ok ms := hms
  exact ⟨mkProfile (nameOf f) ca ta inc td adr ast ms (riskOf f),
    (build_ok_iff f _).mpr
      ⟨ca, ta, inc, td, adr, ast, ms, hca2, hta2, hinc2, htd2, hadr2, hast2, hms2, hr, rfl⟩⟩

/-- Witness for C10 at `negForm`: all seven values negative or zero, risk
spelled `"AGGRESSIVE"`, and the build still succeeds. -/
theorem no_range_validation_witness :
    (build_user_profile negForm).toOption.isSome = true := by
  obtain ⟨p, hp⟩ := no_range_validation negForm
    (by intro s hs; fin_cases hs <;> exact ⟨_, rfl⟩) (by decide)
  rw [hp]
  rfl

/-- C6: fields are validated in declaration order and the first failure
determines the single reported error; a field empty after comma-stripping
and trimming reports `<label> is required.`, and a non-empty unparsable
field reports `<label> must be a number.`. -/
theorem validation_fail_fast (f : Form) (i : Nat) (hi : i < requiredFields.length)
    (e : String)
    (hprev : ∀ j (hj : j < i), ∃ q,
      parse_float f (requiredFields.get ⟨j, Nat.lt_trans hj hi⟩).1
        (requiredFields.get ⟨j, Nat.lt_trans hj hi⟩).2 = Except.ok q)
    (hfail : parse_float f (requiredFields.get ⟨i, hi⟩).1
      (requiredFields.get ⟨i, hi⟩).2 = Except.error e) :
    build_user_profile f = Except.error e ∧
    ((normRaw (f.get (requiredFields.get ⟨i, hi⟩).1) = "" ∧
        e = (requiredFields.get ⟨i, hi⟩).2 ++ " is required.") ∨
     (normRaw (f.get (requiredFields.get ⟨i, hi⟩).1) ≠ "" ∧
        pyFloat (normRaw (f.get (requiredFields.get ⟨i, hi⟩).1)) = none ∧
        e = (requiredFields.get ⟨i, hi⟩).2 ++ " must be a number.")) := by
  have hi7 : i < 7 := hi
  interval_cases i
  · have hfb : parse_float f "current_age" "Current age" = Except.error e := hfail
    refine ⟨?_, parse_float_error_shape f "current_age" "Current age" e hfb⟩
    unfold build_user_profile
    simp only [hfb, error_bind]
  · obtain ⟨q0, hq0⟩ := hprev 0 (by omega)
    have hq0b : parse_float f "current_age" "Current age" = Except.ok q0 := hq0
    have hfb : parse_float f "target_age" "Target age" = Except.error e := hfail
    refine ⟨?_, parse_float_error_shape f "target_age" "Target age" e hfb⟩
    unfold build_user_profile
    simp only [hq0b, hfb, ok_bind, error_bind]
  · obtain ⟨q0, hq0⟩ := hprev 0 (by omega)
    obtain ⟨q1, hq1⟩ := hprev 1 (by omega)
    have hq0b : parse_float f "current_age" "Current age" = Except.ok q0 := hq0
    have hq1b : parse_float f "target_age" "Target age" = Except.ok q1 := hq1
    have hfb : parse_float f "income" "Annual after-tax income" = Except.error e := hfail
    refine ⟨?_, parse_float_error_shape f "income" "Annual after-tax income" e hfb⟩
    unfold build_user_profile
    simp only [hq0b, hq1b, hfb, ok_bind, error_bind]
  · obtain ⟨q0, hq0⟩ := hprev 0 (by omega)
    obtain ⟨q1, hq1⟩ := hprev 1 (by omega)
    obtain ⟨q2, hq2⟩ := hprev 2 (by omega)
    have hq0b : parse_float f "current_age" "Current age" = Except.ok q0 := hq0
    have hq1b : parse_float f "target_age" "Target age" = Except.ok q1 := hq1
    have hq2b : parse_float f "income" "Annual after-tax income" = Except.ok q2 := hq2
    have hfb : parse_float f "total_debt" "Total debt" = Except.error e := hfail
    refine ⟨?_, parse_float_error_shape f "total_debt" "Total debt" e hfb⟩
    unfold build_user_profile
    simp only [hq0b, hq1b, hq2b, hfb, ok_bind, error_bind]
  · obtain ⟨q0, hq0⟩ := hprev 0 (by omega)
    obtain ⟨q1, hq1⟩ := hprev 1 (by omega)
    obtain ⟨q2, hq2⟩ := hprev 2 (by omega)
    obtain ⟨q3, hq3⟩ := hprev 3 (by omega)
    have hq0b : parse_float f "current_age" "Current age" = Except.ok q0 := hq0
    have hq1b : parse_float f "target_age" "Target age" = Except.ok q1 := hq1
    have hq2b : parse_float f "income" "Annual after-tax income" = Except.ok q2 := hq2
    have hq3b : parse_float f "total_debt" "Total debt" = Except.ok q3 := hq3
    have hfb : parse_float f "avg_debt_rate" "Average debt interest rate"
      = Except.error e := hfail
    refine ⟨?_, parse_float_error_shape f "avg_debt_rate" "Average debt interest rate" e hfb⟩
    unfold build_user_profile
    simp only [hq0b, hq1b, hq2b, hq3b, hfb, ok_bind, error_bind]
  · obtain ⟨q0, hq0⟩ := hprev 0 (by omega)
    obtain ⟨q1, hq1⟩ := hprev 1 (by omega)
    obtain ⟨q2, hq2⟩ := hprev 2 (by omega)
    obtain ⟨q3, hq3⟩ := hprev 3 (by omega)
    obtain ⟨q4, hq4⟩ := hprev 4 (by omega)
    have hq0b : parse_float f "current_age" "Current age" = Except.ok q0 := hq0
    have hq1b : parse_float f "target_age" "Target age" = Except.ok q1 := hq1
    have hq2b : parse_float f "income" "Annual after-tax income" = Except.ok q2 := hq2
    have hq3b : parse_float f "total_debt" "Total debt" = Except.ok q3 := hq3
    have hq4b : parse_float f "avg_debt_rate" "Average debt interest rate"
      = Except.ok q4 := hq4
    have hfb : parse_float f "assets" "Total financial assets" = Except.error e := hfail
    refine ⟨?_, parse_float_error_shape f "assets" "Total financial assets" e hfb⟩
    unfold build_user_profile
    simp only [hq0b, hq1b, hq2b, hq3b, hq4b, hfb, ok_bind, error_bind]
  · obtain ⟨q0, hq0⟩ := hprev 0 (by omega)
    obtain ⟨q1, hq1⟩ := hprev 1 (by omega)
    obtain ⟨q2, hq2⟩ := hprev 2 (by omega)
    obtain ⟨q3, hq3⟩ := hprev 3 (by omega)
    obtain ⟨q4, hq4⟩ := hprev 4 (by omega)
    obtain ⟨q5, hq5⟩ := hprev 5 (by omega)
    have hq0b : parse_float f "current_age" "Current age" = Except.ok q0 := hq0
    have hq1b : parse_float f "target_age" "Target age" = Except.ok q1 := hq1
    have hq2b : parse_float f "income" "Annual after-tax income" = Except.ok q2 := hq2
    have hq3b : parse_float f "total_debt" "Total debt" = Except.ok q3 := hq3
    have hq4b : parse_float f "avg_debt_rate" "Average debt interest rate"
      = Except.ok q4 := hq4
    have hq5b : parse_float f "assets" "Total financial assets" = Except.ok q5 := hq5
    have hfb : parse_float f "monthly_savings" "Monthly savings" = Except.error e := hfail
    refine ⟨?_, parse_float_error_shape f "monthly_savings" "Monthly savings" e hfb⟩
    unfold build_user_profile
    simp only [hq0b, hq1b, hq2b, hq3b, hq4b, hq5b, hfb, ok_bind, error_bind]

/-- Witness for C6 at `incompleteForm`: the first two fields parse, the
missing income field (index 2) determines the single reported error. -/
theorem validation_fail_fast_witness :
    build_user_profile incompleteForm = Except.error "Annual after-tax income is required." ∧
    normRaw (incompleteForm.get "income") = "" :=
  ⟨(validation_fail_fast incompleteForm 2 (by decide) "Annual after-tax income is required."
      (fun j hj => by interval_cases j <;> exact ⟨_, rfl⟩) rfl).1,
    by decide⟩

/-- C7: whenever `build_user_profile` fails, the POST handler flashes
exactly the validation message and performs no market fetch and no
language-model invocation. -/
theorem handler_stops_on_validation_error (f : Form)
    (download : String → Except String History) (env : String → Option String)
    (respond : String → List (String × String) → ModelResponse) (e : String)
    (h : build_user_profile f = Except.error e) :
    index_post f download env respond =
      { flashes := [e], profile := none, market_data := none, summary := none,
        gpt_text := none, gpt_error := none, market_fetches := 0,
        gpt_invocations := 0 } := by
  unfold index_post
  simp only [h]

/-- Witness for C7 at `w7Form` (blank income): the handler flashes
`Annual after-tax income is required.` and touches neither external
service. -/
theorem handler_stops_witness :
    index_post w7Form dlOffline envEmpty respondNone =
      { flashes := ["Annual after-tax income is required."], profile := none,
        market_data := none, summary := none, gpt_text := none, gpt_error := none,
        market_fetches := 0, gpt_invocations := 0 } :=
  handler_stops_on_validation_error w7Form dlOffline envEmpty respondNone
    "Annual after-tax income is required." rfl

/-- C8: `fetch_market_snapshot` attempts each of the three fixed symbols
exactly once, in order; an empty result records the no-data error, a
raised fetch error records its message without aborting, and each
symbol's record depends only on that symbol's download, so one failure
never disturbs the other two records. -/
theorem fetch_per_symbol_isolation (download : String → Except String History) :
    (fetch_market_snapshot download).2 = ["^GSPC", "VTI", "BND"] ∧
    (fetch_market_snapshot download).1.map Prod.fst = ["^GSPC", "VTI", "BND"] ∧
    (∀ symbol label, (symbol, label) ∈ MARKET_SYMBOLS →
      (symbol, fetchOne download symbol label) ∈ (fetch_market_snapshot download).1 ∧
      (download symbol = Except.ok [] →
        fetchOne download symbol label =
          SymRecord.failure label "No data returned for this period.") ∧
      (∀ m, download symbol = Except.error m →
        fetchOne download symbol label = SymRecord.failure label m) ∧
      (∀ d2 : String → Except String History, d2 symbol = download symbol →
        fetchOne d2 symbol label = fetchOne download symbol label)) := by
  refine ⟨rfl, rfl, ?_⟩
  intro symbol label hmem
  refine ⟨?_, ?_, ?_, ?_⟩
  · simp only [MARKET_SYMBOLS, List.mem_cons, List.not_mem_nil, or_false,
      Prod.mk.injEq] at hmem
    rcases hmem with ⟨rfl, rfl⟩ | ⟨rfl, rfl⟩ | ⟨rfl, rfl⟩ <;>
      simp [fetch_market_snapshot, fetchSteps, MARKET_SYMBOLS]
  · intro hdl
    simp only [fetchOne, hdl]
  · intro m hdl
    simp only [fetchOne, hdl]
  · intro d2 hagree
    unfold fetchOne
    rw [hagree]

/-- Witness for C8 at `dlEx`, which fails on `VTI` only: all three symbols
are attempted in order, `VTI` carries the error record, and the other two
symbols keep their own records. -/
theorem fetch_isolation_witness :
    (fetch_market_snapshot dlEx).2 = ["^GSPC", "VTI", "BND"] ∧
    ("VTI", SymRecord.failure "Total US Stock Market" "network down")
      ∈ (fetch_market_snapshot dlEx).1 ∧
    ("^GSPC", fetchOne dlEx "^GSPC" "S&P 500") ∈ (fetch_market_snapshot dlEx).1 ∧
    ("BND", fetchOne dlEx "BND" "Total US Bond Market") ∈ (fetch_market_snapshot dlEx).1 := by
  obtain ⟨h1, h2, h3⟩ := fetch_per_symbol_isolation dlEx
  have hv := h3 "VTI" "Total US Stock Market" (by simp [MARKET_SYMBOLS])
  have hf := hv.2.2.1 "network down" rfl
  exact ⟨h1, hf ▸ hv.1, (h3 "^GSPC" "S&P 500" (by simp [MARKET_SYMBOLS])).1,
    (h3 "BND" "Total US Bond Market" (by simp [MARKET_SYMBOLS])).1⟩

/-- C9: when the API credential is absent (or empty, which Python's
`if not api_key` also treats as missing), `call_gpt` fails with the
configuration error, the client is never constructed, and no request is
sent to the provider. -/
theorem gpt_requires_credential (env : String → Option String)
    (respond : String → List (String × String) → ModelResponse)
    (user_summary : String)
    (h : env "OPENAI_API_KEY" = none ∨ env "OPENAI_API_KEY" = some "") :
    (call_gpt env respond user_summary).result =
      Except.error
        "OPENAI_API_KEY is not set. Add it to your .env file before running the app." ∧
    (call_gpt env respond user_summary).client_constructed = false ∧
    (call_gpt env respond user_summary).requests_sent = 0 := by
  rcases h with h | h <;> simp [call_gpt, h]

/-- Witness for C9 with an empty environment: no credential, so the
configuration error is returned and nothing goes out. -/
theorem gpt_requires_credential_witness :
    (call_gpt envEmpty respondNone "summary").result =
      Except.error
        "OPENAI_API_KEY is not set. Add it to your .env file before running the app." ∧
    (call_gpt envEmpty respondNone "summary").client_constructed = false ∧
    (call_gpt envEmpty respondNone "summary").requests_sent = 0 :=
  gpt_requires_credential envEmpty respondNone "summary" (Or.inl rfl)
